import Mathlib

/-!
Verification development for the paniten-bot repository.

This file gives a shallow embedding of the repository's core logic:

* `src/app.js` — webhook format detection and normalization
  (`detectAndTransformWebhook`, the four `transform*Webhook` functions,
  `mapSeverity`) and the canonical-payload path of the `POST /api/alert`
  handler.
* `src/database.js` — the alert table and its conditional-update
  operations (`createAlert`, `acknowledgeAlert`, `resolveAlert`,
  `updateTelegramInfo`, `getWeeklyReport`).
* `src/utils.js` — `validateAlertPayload` and
  `extractAlertIdFromCallback`.

JSON payloads are modelled by the inductive `JsVal`; a webhook body (an
already-parsed JSON object) is modelled as its ordered field list
`List (String × JsVal)`.  JavaScript truthiness, property access
(plain access throws a TypeError on `null`/`undefined`; optional
chaining does not), `||`-chains and string coercion are modelled
explicitly.  `NaN` does not arise: numbers are modelled as integers and
no claim depends on float arithmetic.  Wall-clock quantities
(`Date.now()`, `new Date(x).getTime()`, `clock * 1000`) are recorded
symbolically by `TsVal`, since no claim inspects timestamp values.
-/

/-- A JavaScript/JSON value as seen by the webhook pipeline.  `undefined`
models JavaScript `undefined` (in particular the result of reading an
absent property); `num` models numbers as integers (no claim depends on
fractional values). -/
inductive JsVal where
  | undefined : JsVal
  | nul : JsVal
  | bool : Bool → JsVal
  | num : Int → JsVal
  | str : String → JsVal
  | arr : List JsVal → JsVal
  | obj : List (String × JsVal) → JsVal

/-- JavaScript truthiness: `undefined`, `null`, `false`, `0` and `""`
are falsy; every array and object (including `[]` and `{}`) is truthy. -/
def truthy : JsVal → Bool
  | .undefined => false
  | .nul => false
  | .bool b => b
  | .num n => n != 0
  | .str s => s != ""
  | .arr _ => true
  | .obj _ => true

/-- Whether a value is `null` or `undefined` (the values on which plain
property access throws a TypeError). -/
def jsNullish : JsVal → Bool
  | .nul => true
  | .undefined => true
  | _ => false

/-- `Array.isArray`. -/
def jsIsArray : JsVal → Bool
  | .arr _ => true
  | _ => false

/-- Field lookup in an object's field list; an absent field reads as
`undefined`, as in JavaScript. -/
def getF (p : List (String × JsVal)) (k : String) : JsVal :=
  match p.find? (fun kv => kv.1 == k) with
  | some kv => kv.2
  | none => .undefined

/-- Plain property access `v.k`: throws a TypeError when the receiver is
`null`/`undefined`; yields `undefined` on non-object primitives. -/
def jsGetE (v : JsVal) (k : String) : Except String JsVal :=
  match v with
  | .nul => .error "TypeError"
  | .undefined => .error "TypeError"
  | .obj fs => .ok (getF fs k)
  | .arr xs => .ok (if k == "length" then .num xs.length else .undefined)
  | _ => .ok .undefined

/-- Optional-chain access `v?.k`: `undefined` when the receiver is
nullish, otherwise behaves like plain access (which can no longer
throw). -/
def jsGetOpt (v : JsVal) (k : String) : JsVal :=
  match v with
  | .nul => .undefined
  | .undefined => .undefined
  | .obj fs => getF fs k
  | .arr xs => if k == "length" then .num xs.length else .undefined
  | _ => .undefined

/-- Index access `v[i]`: throws on a nullish receiver; on an array
yields the element or `undefined` past the end; on a string yields the
one-character string; objects are looked up by the decimal key. -/
def jsIndex (v : JsVal) (i : Nat) : Except String JsVal :=
  match v with
  | .nul => .error "TypeError"
  | .undefined => .error "TypeError"
  | .arr xs => .ok (xs.getD i .undefined)
  | .str s => .ok (match s.data.get? i with
      | some c => .str (String.mk [c])
      | none => .undefined)
  | .obj fs => .ok (getF fs (toString i))
  | _ => .ok .undefined

/-- JavaScript `a || b`: `a` when truthy, else `b`. -/
def jsOr (a b : JsVal) : JsVal := if truthy a then a else b

/-- Strict equality `v === 's'` against a string literal. -/
def jsStrictEqStr (v : JsVal) (s : String) : Bool :=
  match v with
  | .str t => t == s
  | _ => false

mutual
/-- JavaScript string coercion `String(v)` / template-literal
interpolation: `undefined` ↦ "undefined", `null` ↦ "null", arrays join
their elements with "," (nullish elements become empty), plain objects
become "[object Object]". -/
def jsToString : JsVal → String
  | .undefined => "undefined"
  | .nul => "null"
  | .bool b => cond b "true" "false"
  | .num n => toString n
  | .str s => s
  | .arr xs => jsArrToString xs
  | .obj _ => "[object Object]"

/-- `Array.prototype.join(',')` on the element list. -/
def jsArrToString : List JsVal → String
  | [] => ""
  | [x] =>
    (match x with
     | .nul => ""
     | .undefined => ""
     | v => jsToString v)
  | x :: xs =>
    (match x with
     | .nul => ""
     | .undefined => ""
     | v => jsToString v) ++ "," ++ jsArrToString xs
end

/-- `Object.entries`: field pairs of an object; index/character pairs of
a string; index/element pairs of an array; empty for primitives. -/
def jsEntries : JsVal → List (String × JsVal)
  | .obj fs => fs
  | .arr xs => (xs.enum).map (fun iv => (toString iv.1, iv.2))
  | .str s => (s.data.enum).map (fun ic => (toString ic.1, .str (String.mk [ic.2])))
  | _ => []

/-- `String.prototype.toLowerCase` (ASCII case folding, as `Char.toLower`
provides; no claim involves non-ASCII case mapping).  Defined over the
character list so that it reduces inside the kernel. -/
def jsToLower (s : String) : String := String.mk (s.data.map Char.toLower)

/-- `String.prototype.trim`: strip leading and trailing whitespace.
Defined over the character list so that it reduces inside the kernel. -/
def jsTrim (s : String) : String :=
  String.mk (((s.data.dropWhile Char.isWhitespace).reverse.dropWhile
    Char.isWhitespace).reverse)

/-- The three canonical severities of the alert schema. -/
def canonicalSeverities : List String := ["critical", "warning", "info"]

/-- The body of `mapSeverity` after the token normalization: the
canonical-value passthrough followed by the `switch (source)` lookup
tables (`src/app.js` 249-284). -/
def severityFromToken (severityStr : String) (source : String) : String :=
  if severityStr = "critical" ∨ severityStr = "warning" ∨ severityStr = "info" then
    severityStr
  else if source = "grafana" ∨ source = "prometheus" then
      if severityStr = "firing" then "warning"
      else if severityStr = "resolved" then "info"
      else if severityStr = "pending" then "info"
      else "warning"
    else if source = "zabbix" then
      if severityStr = "5" ∨ severityStr = "disaster" then "critical"
      else if severityStr = "4" ∨ severityStr = "high" then "critical"
      else if severityStr = "3" ∨ severityStr = "average" then "warning"
      else if severityStr = "2" ∨ severityStr = "warning" then "warning"
      else if severityStr = "1" ∨ severityStr = "information" then "info"
      else if severityStr = "0" ∨ severityStr = "not_classified" then "info"
      else "warning"
    else
      if severityStr = "error" ∨ severityStr = "fatal" ∨ severityStr = "emergency" ∨
         severityStr = "alert" ∨ severityStr = "high" ∨ severityStr = "urgent" then "critical"
      else if severityStr = "warn" ∨ severityStr = "warning" ∨ severityStr = "medium" ∨
              severityStr = "moderate" then "warning"
      else if severityStr = "info" ∨ severityStr = "information" ∨ severityStr = "notice" ∨
              severityStr = "low" ∨ severityStr = "debug" ∨ severityStr = "trace" then "info"
      else "info"

/-- `mapSeverity` from `src/app.js` (lines 244-285), over arbitrary
JavaScript values as the code receives them.  Note the code lower-cases
the chosen token but never trims it. -/
def mapSeverityJs (severity status : JsVal) (source : String) : String :=
  if !truthy severity && !truthy status then "info"
  else
    severityFromToken
      (jsToLower (jsToString (jsOr severity (jsOr status (.str "")))))
      source

/-- Lift the spec-level `string|null` argument type onto `JsVal`. -/
def optStr : Option String → JsVal
  | none => .nul
  | some s => .str s

/-- `map_severity` at the spec's contract type
`(raw_severity : string|null, raw_status : string|null, source_kind)`. -/
def mapSeverity (severity status : Option String) (source : String) : String :=
  mapSeverityJs (optStr severity) (optStr status) source

example : mapSeverity (some "5") none "zabbix" = "critical" := by decide
example : mapSeverity (some "firing") none "grafana" = "warning" := by decide
example : mapSeverity none none "anything" = "info" := by rfl
example : mapSeverity (some "CRITICAL") none "zabbix" = "critical" := by decide
example : mapSeverity (some " critical ") none "generic" = "info" := by decide

/-- Characters `encodeURIComponent` leaves unescaped. -/
def isUnescapedURIChar (c : Char) : Bool :=
  c.isAlphanum || c == '-' || c == '_' || c == '.' || c == '!' ||
    c == '~' || c == '*' || c == '\'' || c == '(' || c == ')'

/-- Upper-case hex digit of a value below 16. -/
def hexDigit (n : Nat) : Char :=
  if n < 10 then Char.ofNat (48 + n) else Char.ofNat (55 + n)

/-- A percent-escaped byte, `"%XX"`. -/
def byteToHex (b : Nat) : String :=
  String.mk ['%', hexDigit (b / 16), hexDigit (b % 16)]

/-- UTF-8 bytes of a character (as `encodeURIComponent` escapes them). -/
def utf8Bytes (c : Char) : List Nat :=
  let n := c.toNat
  if n < 128 then [n]
  else if n < 2048 then [192 + n / 64, 128 + n % 64]
  else if n < 65536 then [224 + n / 4096, 128 + (n / 64) % 64, 128 + n % 64]
  else [240 + n / 262144, 128 + (n / 4096) % 64, 128 + (n / 64) % 64, 128 + n % 64]

/-- `encodeURIComponent`. -/
def encodeURIComponent (s : String) : String :=
  s.data.foldl
    (fun acc c =>
      acc ++ (if isUnescapedURIChar c then String.mk [c]
              else String.join ((utf8Bytes c).map byteToHex)))
    ""

/-- A timestamp expression of the source, kept symbolic: the code either
passes a payload value through `new Date(·).getTime()`, multiplies a
Zabbix epoch-seconds clock by 1000, forwards the raw payload value, or
uses the receipt time `Date.now()`.  No claim inspects the numeric
value, so date parsing and wall-clock reads stay uninterpreted. -/
inductive TsVal where
  | fromDate : JsVal → TsVal
  | fromClockMul : JsVal → TsVal
  | raw : JsVal → TsVal
  | receipt : TsVal

/-- The `metadata` object the transformers build (`status`, `labels`,
`annotations`, `values`, `urls`). -/
structure AlertMetadata where
  status : JsVal
  labels : JsVal
  annotations : JsVal
  values : JsVal
  urls : List (String × JsVal)

/-- The canonical alert record a transformer returns.  `title`, `source`
and `message` keep the JavaScript value the `||`-chains produce (the
code does not force them to strings); `severity` is always the string
`mapSeverity` returns. -/
structure AlertInput where
  title : JsVal
  source : JsVal
  severity : String
  message : JsVal
  timestamp : TsVal
  metadata : AlertMetadata

/-- Result record of `validateAlertPayload`. -/
structure ValidationResult where
  valid : Bool
  error : Option String

/-- A required field fails `!payload[field] || typeof payload[field] !== 'string'`
exactly when it is not a non-empty string. -/
def requiredFieldBad (p : List (String × JsVal)) (k : String) : Bool :=
  match getF p k with
  | .str s => s == ""
  | _ => true

/-- The string content of a field known to be a string (`""` otherwise;
only used after `requiredFieldBad` ruled the other cases out). -/
def strField (p : List (String × JsVal)) (k : String) : String :=
  match getF p k with
  | .str s => s
  | _ => ""

/-- `validateAlertPayload` from `src/utils.js`: the four required fields
must be non-empty strings, `severity` must be exactly one of the three
canonical values (no case folding here), `title` at most 200 and
`message` at most 2000 characters.  JavaScript `.length` counts UTF-16
units; `String.length` counts code points — they agree on all claim
inputs (no astral characters are at issue). -/
def validateAlertPayload (p : List (String × JsVal)) : ValidationResult :=
  if requiredFieldBad p "title" then
    ⟨false, some "Missing or invalid field: title"⟩
  else if requiredFieldBad p "source" then
    ⟨false, some "Missing or invalid field: source"⟩
  else if requiredFieldBad p "severity" then
    ⟨false, some "Missing or invalid field: severity"⟩
  else if requiredFieldBad p "message" then
    ⟨false, some "Missing or invalid field: message"⟩
  else if ¬ (strField p "severity" = "critical" ∨ strField p "severity" = "warning" ∨
             strField p "severity" = "info") then
    ⟨false, some "Invalid severity. Must be one of: critical, warning, info"⟩
  else if (strField p "title").length > 200 then
    ⟨false, some "Title too long (max 200 characters)"⟩
  else if (strField p "message").length > 2000 then
    ⟨false, some "Message too long (max 2000 characters)"⟩
  else
    ⟨true, none⟩

/-- Detection predicate of the canonical branch (`src/app.js` 93-100):
the four fields truthy and the payload passing validation; when the
fields are truthy but validation fails, the code falls through to the
later format detectors. -/
def canonicalShapePred (p : List (String × JsVal)) : Bool :=
  truthy (getF p "title") && truthy (getF p "source") &&
    truthy (getF p "severity") && truthy (getF p "message") &&
    (validateAlertPayload p).valid

/-- Detection predicate of the Grafana branch (`src/app.js` 102):
`payload.alerts` truthy (every array is, the empty one included), an
array, and `payload.receiver` truthy.  Non-emptiness of `alerts` is not
checked. -/
def grafanaShapePred (p : List (String × JsVal)) : Bool :=
  truthy (getF p "alerts") && jsIsArray (getF p "alerts") &&
    truthy (getF p "receiver")

/-- Detection predicate of the Prometheus Alertmanager branch
(`src/app.js` 107). -/
def prometheusShapePred (p : List (String × JsVal)) : Bool :=
  truthy (getF p "alerts") && jsIsArray (getF p "alerts") &&
    truthy (getF p "groupKey")

/-- Detection predicate of the Zabbix branch (`src/app.js` 112). -/
def zabbixShapePred (p : List (String × JsVal)) : Bool :=
  truthy (getF p "trigger") &&
    (truthy (getF p "event") || truthy (getF p "problem"))

/-- Detection predicate of the generic branch (`src/app.js` 117). -/
def genericShapePred (p : List (String × JsVal)) : Bool :=
  truthy (getF p "message") &&
    (truthy (getF p "status") || truthy (getF p "level") ||
      truthy (getF p "priority"))

/-- The `matcher=...%3D...` query string of the Grafana silence URL
(`src/app.js` 141-143). -/
def silenceMatchers (labels : JsVal) : String :=
  String.intercalate "&"
    ((jsEntries labels).map
      (fun kv => "matcher=" ++ encodeURIComponent kv.1 ++ "%3D" ++
        encodeURIComponent (jsToString kv.2)))

/-- `transformGrafanaWebhook` (`src/app.js` 125-163).  `firstAlert` is
`payload.alerts[0]`; plain property reads on it throw when the alerts
array is empty (`undefined`) or its head is `null`. -/
def transformGrafanaWebhook (p : List (String × JsVal)) :
    Except String AlertInput := do
  let firstAlert ← jsIndex (getF p "alerts") 0
  let labelsRaw ← jsGetE firstAlert "labels"
  let annsRaw ← jsGetE firstAlert "annotations"
  let valuesRaw ← jsGetE firstAlert "values"
  let extURL := getF p "externalURL"
  let baseUrls : List (String × JsVal) :=
    if truthy extURL then [("source", extURL)] else []
  let urls :=
    if truthy labelsRaw && truthy extURL then
      baseUrls ++ [("silence", .str (jsToString extURL ++
        "/alerting/silence/new?alertmanager=grafana&" ++
        silenceMatchers labelsRaw))]
    else baseUrls
  let md : AlertMetadata :=
    { status := jsOr (getF p "status") (.str "firing")
      labels := jsOr labelsRaw (.obj [])
      annotations := jsOr annsRaw (.obj [])
      values := jsOr valuesRaw (.obj [])
      urls := urls }
  let startsAt ← jsGetE firstAlert "startsAt"
  pure
    { title := jsOr (jsGetOpt annsRaw "summary")
        (jsOr (jsGetOpt (getF p "commonAnnotations") "summary")
          (jsOr (jsGetOpt labelsRaw "alertname") (.str "Grafana Alert")))
      source := jsOr (jsGetOpt labelsRaw "instance")
        (jsOr (jsGetOpt labelsRaw "job")
          (jsOr (getF p "receiver") (.str "Grafana")))
      severity := mapSeverityJs (jsGetOpt labelsRaw "severity")
        (getF p "status") "grafana"
      message := jsOr (jsGetOpt annsRaw "description")
        (jsOr (jsGetOpt annsRaw "summary")
          (.str ("Alert: " ++ jsToString (jsGetOpt labelsRaw "alertname"))))
      timestamp := if truthy startsAt then .fromDate startsAt else .receipt
      metadata := md }

/-- `transformPrometheusWebhook` (`src/app.js` 165-188). -/
def transformPrometheusWebhook (p : List (String × JsVal)) :
    Except String AlertInput := do
  let firstAlert ← jsIndex (getF p "alerts") 0
  let faStatus ← jsGetE firstAlert "status"
  let labelsRaw ← jsGetE firstAlert "labels"
  let annsRaw ← jsGetE firstAlert "annotations"
  let valuesRaw ← jsGetE firstAlert "values"
  let extURL := getF p "externalURL"
  let md : AlertMetadata :=
    { status := jsOr (getF p "status") (jsOr faStatus (.str "firing"))
      labels := jsOr labelsRaw (.obj [])
      annotations := jsOr annsRaw (.obj [])
      values := jsOr valuesRaw (.obj [])
      urls := if truthy extURL then [("source", extURL)] else [] }
  let startsAt ← jsGetE firstAlert "startsAt"
  pure
    { title := jsOr (jsGetOpt annsRaw "summary")
        (jsOr (jsGetOpt labelsRaw "alertname") (.str "Prometheus Alert"))
      source := jsOr (jsGetOpt labelsRaw "instance")
        (jsOr (jsGetOpt labelsRaw "job") (.str "Prometheus"))
      severity := mapSeverityJs (jsGetOpt labelsRaw "severity")
        (getF p "status") "prometheus"
      message := jsOr (jsGetOpt annsRaw "description")
        (jsOr (jsGetOpt annsRaw "summary") (.str "Prometheus alert triggered"))
      timestamp := if truthy startsAt then .fromDate startsAt else .receipt
      metadata := md }

/-- `transformZabbixWebhook` (`src/app.js` 190-217).  The metadata uses
optional chains throughout; `payload.trigger.name` in the title is a
plain access and throws when `trigger` is nullish. -/
def transformZabbixWebhook (p : List (String × JsVal)) :
    Except String AlertInput := do
  let trigger := getF p "trigger"
  let eventV := getF p "event"
  let md : AlertMetadata :=
    { status := if jsStrictEqStr (jsGetOpt eventV "value") "1"
        then .str "Problem" else .str "OK"
      labels := .obj [("trigger", jsGetOpt trigger "name"),
        ("host", jsGetOpt (getF p "host") "name"),
        ("priority", jsGetOpt trigger "priority")]
      annotations := .obj [("description", jsGetOpt trigger "description")]
      values := .obj []
      urls := if truthy (jsGetOpt trigger "url")
        then [("source", jsGetOpt trigger "url")] else [] }
  let triggerName ← jsGetE trigger "name"
  pure
    { title := jsOr triggerName
        (jsOr (jsGetOpt eventV "name") (.str "Zabbix Alert"))
      source := jsOr (jsGetOpt (getF p "host") "name")
        (jsOr (jsGetOpt trigger "host") (.str "Zabbix"))
      severity := mapSeverityJs (jsGetOpt trigger "priority")
        (jsGetOpt eventV "value") "zabbix"
      message := jsOr (jsGetOpt trigger "description")
        (jsOr (jsGetOpt eventV "description") (.str "Zabbix trigger activated"))
      timestamp := if truthy (jsGetOpt eventV "clock")
        then .fromClockMul (jsGetOpt eventV "clock") else .receipt
      metadata := md }

/-- The keys the generic transformer does not copy into
`metadata.labels` (`src/app.js` 229). -/
def reservedGenericKeys : List String :=
  ["title", "source", "severity", "message", "timestamp", "status",
   "level", "priority"]

/-- `transformGenericWebhook` (`src/app.js` 219-242); total — it only
reads top-level fields of the payload object. -/
def transformGenericWebhook (p : List (String × JsVal)) : AlertInput :=
  { title := jsOr (getF p "title")
      (jsOr (getF p "subject") (jsOr (getF p "alert") (.str "Generic Alert")))
    source := jsOr (getF p "source")
      (jsOr (getF p "service") (jsOr (getF p "host") (.str "Webhook")))
    severity := mapSeverityJs
      (jsOr (getF p "severity") (jsOr (getF p "level") (getF p "priority")))
      (getF p "status") "generic"
    message := jsOr (getF p "message")
      (jsOr (getF p "description") (.str "Alert received"))
    timestamp := if truthy (getF p "timestamp")
      then .fromDate (getF p "timestamp") else .receipt
    metadata :=
      { status := jsOr (getF p "status") (jsOr (getF p "level") (.str "active"))
        labels := .obj (p.filter (fun kv => !(reservedGenericKeys.contains kv.1)))
        annotations := .obj []
        values := .obj []
        urls := [] } }

/-- `detectAndTransformWebhook` (`src/app.js` 93-123): the five shape
predicates are tried in the fixed order canonical, Grafana, Prometheus,
Zabbix, generic; the first match wins; `none` signals "no
transformation" (canonical branch matched, or nothing matched). -/
def detectAndTransformWebhook (p : List (String × JsVal)) :
    Except String (Option AlertInput) :=
  if canonicalShapePred p then .ok none
  else if grafanaShapePred p then (transformGrafanaWebhook p).map some
  else if prometheusShapePred p then (transformPrometheusWebhook p).map some
  else if zabbixShapePred p then (transformZabbixWebhook p).map some
  else if genericShapePred p then .ok (some (transformGenericWebhook p))
  else .ok none

/-- The alert data the `POST /api/alert` handler builds from an
untransformed (canonical) payload (`src/app.js` 374-380): trimmed
title/source/message, lower-cased severity, raw timestamp defaulting to
receipt time. -/
structure CanonicalAlertData where
  title : String
  source : String
  severity : String
  message : String
  timestamp : TsVal

/-- `.trim()` / `.toLowerCase()` are string methods; calling them on a
non-string throws. -/
def asStringE : JsVal → Except String String
  | .str s => .ok s
  | _ => .error "TypeError"

/-- The canonical-path construction of `alertData` in the webhook
handler (`src/app.js` 374-380). -/
def canonicalAlertData (p : List (String × JsVal)) :
    Except String CanonicalAlertData := do
  let t ← asStringE (getF p "title")
  let s ← asStringE (getF p "source")
  let sv ← asStringE (getF p "severity")
  let m ← asStringE (getF p "message")
  pure { title := jsTrim t
         source := jsTrim s
         severity := jsToLower sv
         message := jsTrim m
         timestamp := if truthy (getF p "timestamp")
           then .raw (getF p "timestamp") else .receipt }

example :
    detectAndTransformWebhook
      [("alerts", .arr []), ("receiver", .str "hook")] =
      .error "TypeError" := by rfl

example :
    (detectAndTransformWebhook
      [("title", .str "DB down"), ("source", .str "svc"),
       ("severity", .str "critical"), ("message", .str "timeout")]) =
      .ok none := by rfl

/-- One row of the `alerts` table (`src/database.js` 144-186).  Nullable
columns are `Option`; `BOOLEAN DEFAULT FALSE` columns are `Bool`.
`created_at` and `acknowledged_at`/`resolved_at` are epoch seconds
(`strftime('%s','now')`), `timestamp` is the caller-supplied value. -/
structure AlertRow where
  id : Nat
  title : String
  source : String
  severity : String
  message : String
  timestamp : Int
  created_at : Nat
  metadata : Option String
  telegram_message_id : Option Int
  chat_id : Option Int
  acknowledged : Bool
  acknowledged_by : Option String
  acknowledged_by_id : Option Int
  acknowledged_by_name : Option String
  acknowledged_at : Option Nat
  resolved : Bool
  resolved_by : Option String
  resolved_by_id : Option Int
  resolved_by_name : Option String
  resolved_at : Option Nat
deriving DecidableEq

/-- The `userInfo` record the bot passes to the repository
(`src/bot.js` `extractUserInfo`): Telegram username (may be absent),
numeric id, first/last name. -/
structure UserInfo where
  username : Option String
  id : Int
  firstName : Option String
  lastName : Option String
deriving DecidableEq

/-- `[firstName, lastName].filter(Boolean).join(' ')` — absent or empty
parts are dropped. -/
def mkFullName (u : UserInfo) : String :=
  String.intercalate " "
    (([u.firstName, u.lastName].filterMap (fun x => x)).filter
      (fun s => s ≠ ""))

/-- The columns `createAlert` inserts (`src/database.js` 239-261);
`metadata` is the serialized JSON blob or SQL NULL. -/
structure CreateInput where
  title : String
  source : String
  severity : String
  message : String
  timestamp : Int
  metadata : Option String
deriving DecidableEq

/-- The id `AUTOINCREMENT` assigns: one more than the largest id ever
used (with no delete path, one more than the largest current id). -/
def nextAlertId (db : List AlertRow) : Nat :=
  (db.foldl (fun m r => max m r.id) 0) + 1

/-- `createAlert`: INSERT of a new row with the lifecycle columns at
their schema defaults (`acknowledged`/`resolved` FALSE, attributions
NULL).  The schema's `CHECK(severity IN ('critical','warning','info'))`
makes the INSERT fail — rejecting the promise and leaving the table
unchanged — for any other severity. -/
def createAlert (input : CreateInput) (now : Nat) (db : List AlertRow) :
    List AlertRow × Option Nat :=
  if input.severity = "critical" ∨ input.severity = "warning" ∨
     input.severity = "info" then
    let newId := nextAlertId db
    (db ++ [{ id := newId
              title := input.title
              source := input.source
              severity := input.severity
              message := input.message
              timestamp := input.timestamp
              created_at := now
              metadata := input.metadata
              telegram_message_id := none
              chat_id := none
              acknowledged := false
              acknowledged_by := none
              acknowledged_by_id := none
              acknowledged_by_name := none
              acknowledged_at := none
              resolved := false
              resolved_by := none
              resolved_by_id := none
              resolved_by_name := none
              resolved_at := none }], some newId)
  else (db, none)

/-- Row predicate of the `acknowledgeAlert` UPDATE:
`WHERE id = ? AND acknowledged = FALSE`. -/
def ackPred (alertId : Nat) (r : AlertRow) : Bool :=
  r.id == alertId && !r.acknowledged

/-- The SET clause of `acknowledgeAlert`. -/
def ackUpdate (u : UserInfo) (now : Nat) (r : AlertRow) : AlertRow :=
  { r with acknowledged := true
           acknowledged_by := u.username
           acknowledged_by_id := some u.id
           acknowledged_by_name := some (mkFullName u)
           acknowledged_at := some now }

/-- `acknowledgeAlert` (`src/database.js` 284-310): the single
conditional UPDATE; the boolean result is `this.changes > 0`. -/
def acknowledgeAlert (alertId : Nat) (u : UserInfo) (now : Nat)
    (db : List AlertRow) : List AlertRow × Bool :=
  (db.map (fun r => if ackPred alertId r then ackUpdate u now r else r),
   decide (0 < db.countP (ackPred alertId)))

/-- Row predicate of the `resolveAlert` UPDATE:
`WHERE id = ? AND acknowledged = TRUE AND resolved = FALSE`. -/
def resPred (alertId : Nat) (r : AlertRow) : Bool :=
  r.id == alertId && r.acknowledged && !r.resolved

/-- The SET clause of `resolveAlert`. -/
def resUpdate (u : UserInfo) (now : Nat) (r : AlertRow) : AlertRow :=
  { r with resolved := true
           resolved_by := u.username
           resolved_by_id := some u.id
           resolved_by_name := some (mkFullName u)
           resolved_at := some now }

/-- `resolveAlert` (`src/database.js` 312-338): the single conditional
UPDATE; the boolean result is `this.changes > 0`. -/
def resolveAlert (alertId : Nat) (u : UserInfo) (now : Nat)
    (db : List AlertRow) : List AlertRow × Bool :=
  (db.map (fun r => if resPred alertId r then resUpdate u now r else r),
   decide (0 < db.countP (resPred alertId)))

/-- `updateTelegramInfo` (`src/database.js` 263-282): unconditional
UPDATE on the id; resolves with the change count. -/
def updateTelegramInfo (alertId : Nat) (telegramMessageId chatId : Option Int)
    (db : List AlertRow) : List AlertRow × Nat :=
  (db.map (fun r => if r.id == alertId then
      { r with telegram_message_id := telegramMessageId, chat_id := chatId }
    else r),
   db.countP (fun r => r.id == alertId))

/-- The record `getWeeklyReport`'s SELECT produces.  `COUNT(*)` over an
empty set is 0, but per SQLite semantics each `SUM(CASE ...)` over an
empty set is SQL NULL — hence the six `Option Nat` fields, `none` when
no row falls inside the window. -/
structure WeeklyReport where
  total : Nat
  acknowledged : Option Nat
  resolved : Option Nat
  unacknowledged : Option Nat
  critical : Option Nat
  warning : Option Nat
  info : Option Nat
deriving DecidableEq

/-- `getWeeklyReport` (`src/database.js` 357-383): aggregates over rows
with `created_at >= strftime('%s','now','-7 days')`, i.e. within the
trailing 604800 seconds (truncated `Nat` subtraction matches: epoch
seconds are non-negative). -/
def getWeeklyReport (now : Nat) (db : List AlertRow) : WeeklyReport :=
  let rows := db.filter (fun r => now - 604800 ≤ r.created_at)
  let sum (f : AlertRow → Bool) : Option Nat :=
    if rows.isEmpty then none else some (rows.countP f)
  { total := rows.length
    acknowledged := sum (fun r => r.acknowledged)
    resolved := sum (fun r => r.resolved)
    unacknowledged := sum (fun r => !r.acknowledged)
    critical := sum (fun r => r.severity == "critical")
    warning := sum (fun r => r.severity == "warning")
    info := sum (fun r => r.severity == "info") }

/-- The database states reachable through the repository's write
operations, starting from the empty table (the schema is created fresh;
there is no delete path). -/
inductive Reachable : List AlertRow → Prop where
  | init : Reachable []
  | create (input : CreateInput) (now : Nat) {db : List AlertRow} :
      Reachable db → Reachable (createAlert input now db).1
  | ack (alertId : Nat) (u : UserInfo) (now : Nat) {db : List AlertRow} :
      Reachable db → Reachable (acknowledgeAlert alertId u now db).1
  | resolve (alertId : Nat) (u : UserInfo) (now : Nat) {db : List AlertRow} :
      Reachable db → Reachable (resolveAlert alertId u now db).1
  | telegram (alertId : Nat) (mid cid : Option Int) {db : List AlertRow} :
      Reachable db → Reachable (updateTelegramInfo alertId mid cid db).1

/-- `extractAlertIdFromCallback`'s non-null result
(`src/utils.js` 1275-1283). -/
structure CallbackResult where
  id : Nat
  action : String
deriving DecidableEq

/-- Strip an exact character-list prefix, returning the remainder. -/
def dropPrefixChars : List Char → List Char → Option (List Char)
  | [], rest => some rest
  | _ :: _, [] => none
  | p :: ps, c :: cs => if c = p then dropPrefixChars ps cs else none

/-- `parseInt` on a digit-only string: the decimal value (no claim
involves ids beyond JavaScript's exact-integer range). -/
def digitsToNat (ds : List Char) : Nat :=
  ds.foldl (fun n c => n * 10 + (c.toNat - 48)) 0

/-- The whole-string regex `^pre(\d+)$`: the prefix followed by one or
more decimal digits and nothing else, capturing the digit run. -/
def matchPrefixDigits (pre cs : List Char) : Option (List Char) :=
  match dropPrefixChars pre cs with
  | some rest =>
    if rest.length > 0 && rest.all Char.isDigit then some rest else none
  | none => none

/-- `extractAlertIdFromCallback` (`src/utils.js` 1275-1283): tries
`^ack_(\d+)$` then `^resolve_(\d+)$`; any other string yields null. -/
def extractAlertIdFromCallback (callbackData : String) :
    Option CallbackResult :=
  match matchPrefixDigits "ack_".data callbackData.data with
  | some ds => some ⟨digitsToNat ds, "acknowledge"⟩
  | none =>
    match matchPrefixDigits "resolve_".data callbackData.data with
    | some ds => some ⟨digitsToNat ds, "resolve"⟩
    | none => none

example : extractAlertIdFromCallback "ack_12" = some ⟨12, "acknowledge"⟩ := by decide
example : extractAlertIdFromCallback "resolve_7" = some ⟨7, "resolve"⟩ := by decide
example : extractAlertIdFromCallback "ack_" = none := by decide
example : extractAlertIdFromCallback "ack_12x" = none := by decide
example : extractAlertIdFromCallback "xack_12" = none := by decide
example : extractAlertIdFromCallback "ack_-2" = none := by decide
example : getWeeklyReport 1000000 [] =
  { total := 0, acknowledged := none, resolved := none,
    unacknowledged := none, critical := none, warning := none,
    info := none } := by decide

theorem severityFromToken_mem (s src : String) :
    severityFromToken s src = "critical" ∨ severityFromToken s src = "warning" ∨
      severityFromToken s src = "info" := by
  unfold severityFromToken
  split_ifs <;> simp_all

theorem mapSeverityJs_mem (sev st : JsVal) (src : String) :
    mapSeverityJs sev st src = "critical" ∨ mapSeverityJs sev st src = "warning" ∨
      mapSeverityJs sev st src = "info" := by
  rw [mapSeverityJs]
  split_ifs with h
  · simp
  · exact severityFromToken_mem _ _

theorem mapSeverity_sev_reduce (t : String) (h : t ≠ "") (st : Option String)
    (src : String) :
    mapSeverity (some t) st src = severityFromToken (jsToLower t) src := by
  simp [mapSeverity, mapSeverityJs, optStr, truthy, jsOr, jsToString, h]

theorem mapSeverity_status_reduce (st : String) (h : st ≠ "") (src : String) :
    mapSeverity none (some st) src = severityFromToken (jsToLower st) src := by
  simp [mapSeverity, mapSeverityJs, optStr, truthy, jsOr, jsToString, h]

/-- The tokens the zabbix `switch` handles explicitly, together with the
canonical passthrough values. -/
def zabbixHandledTokens : List String :=
  ["critical", "warning", "info", "5", "4", "3", "2", "1", "0",
   "disaster", "high", "average", "information", "not_classified"]

/-- The tokens the grafana/prometheus `switch` handles explicitly,
together with the canonical passthrough values. -/
def gpHandledTokens : List String :=
  ["critical", "warning", "info", "firing", "resolved", "pending"]

theorem severityFromToken_zabbix_default (s : String)
    (h : s ∉ zabbixHandledTokens) : severityFromToken s "zabbix" = "warning" := by
  simp only [zabbixHandledTokens, List.mem_cons, List.not_mem_nil, or_false] at h
  push_neg at h
  obtain ⟨h1, h2, h3, h4, h5, h6, h7, h8, h9, h10, h11, h12, h13, h14⟩ := h
  simp [severityFromToken, h1, h2, h3, h4, h5, h6, h7, h8, h9, h10, h11, h12,
    h13, h14]

theorem severityFromToken_gp_default (s src : String)
    (hsrc : src = "grafana" ∨ src = "prometheus") (h : s ∉ gpHandledTokens) :
    severityFromToken s src = "warning" := by
  simp only [gpHandledTokens, List.mem_cons, List.not_mem_nil, or_false] at h
  push_neg at h
  obtain ⟨h1, h2, h3, h4, h5, h6⟩ := h
  rcases hsrc with rfl | rfl <;>
    simp [severityFromToken, h1, h2, h3, h4, h5, h6]

/-- C3: `map_severity` is a total function: for every
`raw_severity`/`raw_status` (string or null) and every source kind it
returns one of exactly {critical, warning, info}, with no error path;
in particular, when both inputs are absent it returns "info" regardless
of the source kind. -/
theorem mapSeverity_total :
    (∀ (sev st : Option String) (src : String),
        mapSeverity sev st src = "critical" ∨
        mapSeverity sev st src = "warning" ∨
        mapSeverity sev st src = "info")
    ∧ (∀ src : String, mapSeverity none none src = "info") :=
  ⟨fun _ _ _ => mapSeverityJs_mem _ _ _, fun _ => rfl⟩

/-- C6: the zabbix lookup table maps 5/4/disaster/high to critical,
3/2/average/warning to warning, 1/0/information/not_classified to info
and any other (non-empty, lowercased) token to warning; the
grafana/prometheus table maps firing to warning, resolved and pending
to info and any other unhandled token to warning; in particular
`map_severity('5', None, 'zabbix') = 'critical'` and
`map_severity('firing', None, 'grafana') = 'warning'`. -/
theorem mapSeverity_source_tables :
    (mapSeverity (some "5") none "zabbix" = "critical" ∧
    mapSeverity (some "4") none "zabbix" = "critical" ∧
    mapSeverity (some "disaster") none "zabbix" = "critical" ∧
    mapSeverity (some "high") none "zabbix" = "critical" ∧
    mapSeverity (some "3") none "zabbix" = "warning" ∧
    mapSeverity (some "2") none "zabbix" = "warning" ∧
    mapSeverity (some "average") none "zabbix" = "warning" ∧
    mapSeverity (some "warning") none "zabbix" = "warning" ∧
    mapSeverity (some "1") none "zabbix" = "info" ∧
    mapSeverity (some "0") none "zabbix" = "info" ∧
    mapSeverity (some "information") none "zabbix" = "info" ∧
    mapSeverity (some "not_classified") none "zabbix" = "info" ∧
    mapSeverity (some "firing") none "grafana" = "warning" ∧
    mapSeverity (some "resolved") none "grafana" = "info" ∧
    mapSeverity (some "pending") none "grafana" = "info" ∧
    mapSeverity (some "firing") none "prometheus" = "warning" ∧
    mapSeverity (some "resolved") none "prometheus" = "info" ∧
    mapSeverity (some "pending") none "prometheus" = "info") ∧
    (∀ t : String, t ≠ "" → jsToLower t ∉ zabbixHandledTokens →
        mapSeverity (some t) none "zabbix" = "warning") ∧
    (∀ t : String, t ≠ "" → jsToLower t ∉ gpHandledTokens →
        mapSeverity (some t) none "grafana" = "warning" ∧
        mapSeverity (some t) none "prometheus" = "warning") := by
  refine ⟨by decide, ?_, ?_⟩
  · intro t ht hmem
    rw [mapSeverity_sev_reduce t ht]
    exact severityFromToken_zabbix_default _ hmem
  · intro t ht hmem
    constructor
    · rw [mapSeverity_sev_reduce t ht]
      exact severityFromToken_gp_default _ _ (Or.inl rfl) hmem
    · rw [mapSeverity_sev_reduce t ht]
      exact severityFromToken_gp_default _ _ (Or.inr rfl) hmem

theorem mapSeverity_source_tables_witness :
    ("7" : String) ≠ "" ∧ jsToLower "7" ∉ zabbixHandledTokens ∧
      mapSeverity (some "7") none "zabbix" = "warning" :=
  ⟨by decide, by decide,
    mapSeverity_source_tables.2.1 "7"
      (by decide) (by decide)⟩

/-- C7 (amended): `map_severity` lower-cases — but does not trim — its
chosen input, preferring a truthy `raw_severity` and falling back to
`raw_status`; when the lowercased token is exactly one of the three
canonical values it is returned unchanged, so tokens differing from a
canonical value only by letter case (such as 'CRITICAL') pass through
for every source kind; tokens with surrounding whitespace are not
recognized as canonical (e.g. ' critical ' with the generic source maps
to 'info'). -/
theorem mapSeverity_canonical_passthrough :
    (∀ (st : Option String) (src : String),
        mapSeverity (some "CRITICAL") st src = "critical")
    ∧ (∀ (t : String) (st : Option String) (src : String), t ≠ "" →
        (jsToLower t = "critical" ∨ jsToLower t = "warning" ∨
          jsToLower t = "info") →
        mapSeverity (some t) st src = jsToLower t)
    ∧ (∀ (t : String) (st : Option String) (src : String), t ≠ "" →
        mapSeverity (some t) st src = severityFromToken (jsToLower t) src)
    ∧ (∀ (st src : String), st ≠ "" →
        mapSeverity none (some st) src = severityFromToken (jsToLower st) src)
    ∧ mapSeverity (some " critical ") none "generic" = "info" := by
  have key : ∀ (t : String) (st : Option String) (src : String), t ≠ "" →
      (jsToLower t = "critical" ∨ jsToLower t = "warning" ∨
        jsToLower t = "info") →
      mapSeverity (some t) st src = jsToLower t := by
    intro t st src ht hmem
    rw [mapSeverity_sev_reduce t ht]
    rcases hmem with h | h | h <;> rw [h] <;> simp [severityFromToken]
  refine ⟨?_, key, fun t st src ht => mapSeverity_sev_reduce t ht st src,
    fun st src hst => mapSeverity_status_reduce st hst src, by decide⟩
  intro st src
  have := key "CRITICAL" st src (by decide) (by decide)
  simpa using this

theorem mapSeverity_canonical_passthrough_witness :
    mapSeverity (some "Warning") none "zabbix" = jsToLower "Warning" :=
  mapSeverity_canonical_passthrough.2.1 "Warning" none "zabbix"
    (by decide) (by decide)

theorem mapSeverity_whitespace_counterexample :
    mapSeverity (some " critical ") none "generic" ≠ "critical" := by decide

theorem dropPrefixChars_append (pre rest : List Char) :
    dropPrefixChars pre (pre ++ rest) = some rest := by
  induction pre with
  | nil => rfl
  | cons a ps ih => simp [dropPrefixChars, ih]

theorem dropPrefixChars_eq_some {pre cs rest : List Char}
    (h : dropPrefixChars pre cs = some rest) : cs = pre ++ rest := by
  induction pre generalizing cs with
  | nil => simpa [dropPrefixChars] using h
  | cons a ps ih =>
    cases cs with
    | nil => simp [dropPrefixChars] at h
    | cons c cs' =>
      by_cases hca : c = a
      · subst hca
        simp only [dropPrefixChars, if_pos rfl] at h
        simpa using ih h
      · simp [dropPrefixChars, hca] at h

theorem matchPrefixDigits_iff {pre cs ds : List Char} :
    matchPrefixDigits pre cs = some ds ↔
      cs = pre ++ ds ∧ ds ≠ [] ∧ ds.all Char.isDigit = true := by
  constructor
  · intro h
    unfold matchPrefixDigits at h
    cases hd : dropPrefixChars pre cs with
    | none => simp [hd] at h
    | some rest =>
      simp only [hd] at h
      split at h
      · next hc =>
        obtain rfl : rest = ds := by simpa using h
        simp only [Bool.and_eq_true, decide_eq_true_eq] at hc
        refine ⟨dropPrefixChars_eq_some hd, ?_, hc.2⟩
        intro hnil
        rw [hnil] at hc
        simp at hc
      · simp at h
  · rintro ⟨rfl, hne, hdig⟩
    unfold matchPrefixDigits
    rw [dropPrefixChars_append]
    simp [hdig, List.length_pos.mpr hne]

/-- C10: `extractAlertIdFromCallback` returns a non-null result exactly
when the whole callback string is `ack_` or `resolve_` followed by one
or more decimal digits and nothing else; the result's action is
"acknowledge" for the `ack_` prefix and "resolve" for the `resolve_`
prefix, its id is the digit run read as a decimal number, and every
other string yields null. -/
theorem extractAlertIdFromCallback_spec (s : String) :
    ((extractAlertIdFromCallback s).isSome ↔
      ∃ ds : String, ds.data ≠ [] ∧ ds.data.all Char.isDigit = true ∧
        (s = "ack_" ++ ds ∨ s = "resolve_" ++ ds))
    ∧ (∀ ds : String, ds.data ≠ [] → ds.data.all Char.isDigit = true →
        extractAlertIdFromCallback ("ack_" ++ ds) =
          some ⟨digitsToNat ds.data, "acknowledge"⟩ ∧
        extractAlertIdFromCallback ("resolve_" ++ ds) =
          some ⟨digitsToNat ds.data, "resolve"⟩) := by
  have hack : ∀ ds : String, ds.data ≠ [] → ds.data.all Char.isDigit = true →
      extractAlertIdFromCallback ("ack_" ++ ds) =
        some ⟨digitsToNat ds.data, "acknowledge"⟩ := by
    intro ds hne hdig
    unfold extractAlertIdFromCallback
    have h1 : matchPrefixDigits "ack_".data ("ack_" ++ ds).data =
        some ds.data := by
      rw [String.data_append]
      exact matchPrefixDigits_iff.mpr ⟨rfl, hne, hdig⟩
    rw [h1]
  have hres : ∀ ds : String, ds.data ≠ [] → ds.data.all Char.isDigit = true →
      extractAlertIdFromCallback ("resolve_" ++ ds) =
        some ⟨digitsToNat ds.data, "resolve"⟩ := by
    intro ds hne hdig
    unfold extractAlertIdFromCallback
    have h0 : matchPrefixDigits "ack_".data ("resolve_" ++ ds).data = none := by
      rw [String.data_append]
      show matchPrefixDigits ['a', 'c', 'k', '_']
        (['r', 'e', 's', 'o', 'l', 'v', 'e', '_'] ++ ds.data) = none
      simp [matchPrefixDigits, dropPrefixChars]
    have h1 : matchPrefixDigits "resolve_".data ("resolve_" ++ ds).data =
        some ds.data := by
      rw [String.data_append]
      exact matchPrefixDigits_iff.mpr ⟨rfl, hne, hdig⟩
    rw [h0, h1]
  refine ⟨⟨?_, ?_⟩, fun ds hne hdig => ⟨hack ds hne hdig, hres ds hne hdig⟩⟩
  · intro hs
    unfold extractAlertIdFromCallback at hs
    cases h1 : matchPrefixDigits "ack_".data s.data with
    | some ds =>
      obtain ⟨heq, hne, hdig⟩ := matchPrefixDigits_iff.mp h1
      exact ⟨String.mk ds, hne, hdig,
        Or.inl (String.ext (by rw [heq, String.data_append]))⟩
    | none =>
      rw [h1] at hs
      cases h2 : matchPrefixDigits "resolve_".data s.data with
      | some ds =>
        obtain ⟨heq, hne, hdig⟩ := matchPrefixDigits_iff.mp h2
        exact ⟨String.mk ds, hne, hdig,
          Or.inr (String.ext (by rw [heq, String.data_append]))⟩
      | none =>
        rw [h2] at hs
        simp at hs
  · rintro ⟨ds, hne, hdig, rfl | rfl⟩
    · rw [hack ds hne hdig]; rfl
    · rw [hres ds hne hdig]; rfl

theorem extractAlertIdFromCallback_spec_witness :
    extractAlertIdFromCallback ("ack_" ++ "12") =
      some ⟨digitsToNat "12".data, "acknowledge"⟩ :=
  ((extractAlertIdFromCallback_spec "ack_12").2 "12" (by decide) (by decide)).1

theorem mapGuardedId {α : Type} (p : α → Bool) (f : α → α) (l : List α)
    (h : ∀ x ∈ l, p x = false) :
    l.map (fun x => if p x then f x else x) = l := by
  have h2 : ∀ x ∈ l, (fun x => if p x then f x else x) x = id x := by
    intro x hx
    simp [h x hx]
  rw [List.map_congr_left h2, List.map_id]

theorem acknowledgeAlert_success_iff (alertId : Nat) (u : UserInfo)
    (now : Nat) (db : List AlertRow) :
    (acknowledgeAlert alertId u now db).2 = true ↔
      ∃ r ∈ db, r.id = alertId ∧ r.acknowledged = false := by
  show decide (0 < db.countP (ackPred alertId)) = true ↔ _
  rw [decide_eq_true_iff, List.countP_pos_iff]
  constructor
  · rintro ⟨r, hr, hp⟩
    simp only [ackPred, Bool.and_eq_true, beq_iff_eq, Bool.not_eq_true'] at hp
    exact ⟨r, hr, hp⟩
  · rintro ⟨r, hr, h1, h2⟩
    exact ⟨r, hr, by simp [ackPred, h1, h2]⟩

theorem acknowledgeAlert_fail_unchanged (alertId : Nat) (u : UserInfo)
    (now : Nat) (db : List AlertRow)
    (h : (acknowledgeAlert alertId u now db).2 = false) :
    (acknowledgeAlert alertId u now db).1 = db := by
  have hz : db.countP (ackPred alertId) = 0 :=
    Nat.eq_zero_of_not_pos (of_decide_eq_false h)
  exact mapGuardedId _ _ _ (by simpa using List.countP_eq_zero.mp hz)

theorem acknowledgeAlert_all_acked (alertId : Nat) (u : UserInfo) (now : Nat)
    (db : List AlertRow) :
    ∀ r ∈ (acknowledgeAlert alertId u now db).1, ackPred alertId r = false := by
  intro r hr
  obtain ⟨r0, hr0, rfl⟩ := List.mem_map.mp hr
  by_cases hp : ackPred alertId r0 = true
  · rw [if_pos hp]
    simp [ackPred, ackUpdate]
  · rw [if_neg hp]
    simpa using hp

/-- C2: `acknowledgeAlert` succeeds (returns true) exactly when some
stored row has the requested id with `acknowledged = FALSE`; on failure
(id absent or already acknowledged) the table is unchanged; on success
the matching row is replaced by the actor-attributed acknowledged row
while already-acknowledged rows are untouched; and a second
`acknowledgeAlert` on the same id — by any actor — returns false and
leaves the table exactly as the first call left it, so the attribution
stays with the first actor. -/
theorem acknowledgeAlert_conditional (alertId : Nat) (uA uB : UserInfo)
    (nowA nowB : Nat) (db : List AlertRow) :
    ((acknowledgeAlert alertId uA nowA db).2 = true ↔
      ∃ r ∈ db, r.id = alertId ∧ r.acknowledged = false)
    ∧ ((acknowledgeAlert alertId uA nowA db).2 = false →
        (acknowledgeAlert alertId uA nowA db).1 = db)
    ∧ (∀ r ∈ db, r.id = alertId → r.acknowledged = false →
        ackUpdate uA nowA r ∈ (acknowledgeAlert alertId uA nowA db).1)
    ∧ (∀ r ∈ db, r.id = alertId → r.acknowledged = true →
        r ∈ (acknowledgeAlert alertId uA nowA db).1)
    ∧ (acknowledgeAlert alertId uB nowB
        (acknowledgeAlert alertId uA nowA db).1).2 = false
    ∧ (acknowledgeAlert alertId uB nowB
        (acknowledgeAlert alertId uA nowA db).1).1 =
        (acknowledgeAlert alertId uA nowA db).1 := by
  have hsecond : (acknowledgeAlert alertId uB nowB
      (acknowledgeAlert alertId uA nowA db).1).2 = false := by
    show decide _ = false
    rw [decide_eq_false_iff_not]
    intro hpos
    obtain ⟨r, hr, hp⟩ := List.countP_pos_iff.mp hpos
    rw [acknowledgeAlert_all_acked alertId uA nowA db r hr] at hp
    exact Bool.false_ne_true hp
  refine ⟨acknowledgeAlert_success_iff alertId uA nowA db,
    acknowledgeAlert_fail_unchanged alertId uA nowA db, ?_, ?_, hsecond,
    acknowledgeAlert_fail_unchanged alertId uB nowB _ hsecond⟩
  · intro r hr h1 h2
    exact List.mem_map.mpr ⟨r, hr, by rw [if_pos (by simp [ackPred, h1, h2])]⟩
  · intro r hr _ h2
    exact List.mem_map.mpr ⟨r, hr, by rw [if_neg (by simp [ackPred, h2])]⟩

/-- A fresh (unacknowledged, unresolved) sample row, used to exercise
the conditional-update theorems on concrete inputs. -/
def sampleRow : AlertRow :=
  { id := 1, title := "t", source := "s", severity := "critical",
    message := "m", timestamp := 0, created_at := 50,
    metadata := none, telegram_message_id := none, chat_id := none,
    acknowledged := false, acknowledged_by := none,
    acknowledged_by_id := none, acknowledged_by_name := none,
    acknowledged_at := none, resolved := false, resolved_by := none,
    resolved_by_id := none, resolved_by_name := none, resolved_at := none }

/-- Sample actors. -/
def sampleUserA : UserInfo := ⟨some "alice", 10, some "Alice", none⟩

def sampleUserB : UserInfo := ⟨some "bob", 11, some "Bob", none⟩

theorem acknowledgeAlert_conditional_witness :
    (acknowledgeAlert 1 sampleUserA 100 [sampleRow]).2 = true ∧
    ackUpdate sampleUserA 100 sampleRow ∈
      (acknowledgeAlert 1 sampleUserA 100 [sampleRow]).1 ∧
    (acknowledgeAlert 1 sampleUserB 200
      (acknowledgeAlert 1 sampleUserA 100 [sampleRow]).1).2 = false :=
  ⟨(acknowledgeAlert_conditional 1 sampleUserA sampleUserB 100 200
      [sampleRow]).1.mpr ⟨sampleRow, by simp, rfl, rfl⟩,
    (acknowledgeAlert_conditional 1 sampleUserA sampleUserB 100 200
      [sampleRow]).2.2.1 sampleRow (by simp) rfl rfl,
    (acknowledgeAlert_conditional 1 sampleUserA sampleUserB 100 200
      [sampleRow]).2.2.2.2.1⟩

theorem resolveAlert_success_iff (alertId : Nat) (u : UserInfo) (now : Nat)
    (db : List AlertRow) :
    (resolveAlert alertId u now db).2 = true ↔
      ∃ r ∈ db, r.id = alertId ∧ r.acknowledged = true ∧ r.resolved = false := by
  show decide (0 < db.countP (resPred alertId)) = true ↔ _
  rw [decide_eq_true_iff, List.countP_pos_iff]
  constructor
  · rintro ⟨r, hr, hp⟩
    simp only [resPred, Bool.and_eq_true, beq_iff_eq, Bool.not_eq_true'] at hp
    exact ⟨r, hr, hp.1.1, hp.1.2, hp.2⟩
  · rintro ⟨r, hr, h1, h2, h3⟩
    exact ⟨r, hr, by simp [resPred, h1, h2, h3]⟩

theorem resolveAlert_fail_unchanged (alertId : Nat) (u : UserInfo) (now : Nat)
    (db : List AlertRow)
    (h : (resolveAlert alertId u now db).2 = false) :
    (resolveAlert alertId u now db).1 = db := by
  have hz : db.countP (resPred alertId) = 0 :=
    Nat.eq_zero_of_not_pos (of_decide_eq_false h)
  exact mapGuardedId _ _ _ (by simpa using List.countP_eq_zero.mp hz)

/-- The lifecycle invariant `resolved = true → acknowledged = true`
holds in every database state reachable through the repository's write
operations. -/
theorem reachable_resolved_imp_acknowledged :
    ∀ db : List AlertRow, Reachable db →
      ∀ r ∈ db, r.resolved = true → r.acknowledged = true := by
  intro db h
  induction h with
  | init =>
    intro r hr
    simp at hr
  | create input cnow hdb ih =>
    intro r hr hres
    unfold createAlert at hr
    split at hr
    · simp only at hr
      rcases List.mem_append.mp hr with hmem | hmem
      · exact ih r hmem hres
      · obtain rfl := List.mem_singleton.mp hmem
        simp at hres
    · exact ih r hr hres
  | ack alertId' u' now' hdb ih =>
    intro r hr hres
    obtain ⟨r0, hr0, rfl⟩ := List.mem_map.mp hr
    by_cases hp : ackPred alertId' r0 = true
    · rw [if_pos hp]
      simp [ackUpdate]
    · rw [if_neg hp] at hres ⊢
      exact ih r0 hr0 hres
  | resolve alertId' u' now' hdb ih =>
    intro r hr hres
    obtain ⟨r0, hr0, rfl⟩ := List.mem_map.mp hr
    by_cases hp : resPred alertId' r0 = true
    · rw [if_pos hp]
      simp only [resPred, Bool.and_eq_true, beq_iff_eq] at hp
      simpa [resUpdate] using hp.1.2
    · rw [if_neg hp] at hres ⊢
      exact ih r0 hr0 hres
  | telegram alertId' mid cid hdb ih =>
    intro r hr hres
    obtain ⟨r0, hr0, rfl⟩ := List.mem_map.mp hr
    by_cases hp : (r0.id == alertId') = true
    · rw [if_pos hp] at hres ⊢
      exact ih r0 hr0 (by simpa using hres)
    · rw [if_neg hp] at hres ⊢
      exact ih r0 hr0 hres

/-- C1: `resolveAlert` returns true — and installs the resolved flag
with the resolver's attribution — exactly when some stored row has the
requested id with `acknowledged = TRUE` and `resolved = FALSE`; in
every other case (id absent, not yet acknowledged, already resolved) it
returns false and leaves the table unchanged; consequently a resolve on
a never-acknowledged id always returns false and mutates nothing, and
every reachable database state satisfies
`resolved = true → acknowledged = true`. -/
theorem resolveAlert_conditional (alertId : Nat) (u : UserInfo) (now : Nat)
    (db : List AlertRow) :
    ((resolveAlert alertId u now db).2 = true ↔
      ∃ r ∈ db, r.id = alertId ∧ r.acknowledged = true ∧ r.resolved = false)
    ∧ ((resolveAlert alertId u now db).2 = false →
        (resolveAlert alertId u now db).1 = db)
    ∧ (∀ r ∈ db, r.id = alertId → r.acknowledged = true → r.resolved = false →
        resUpdate u now r ∈ (resolveAlert alertId u now db).1)
    ∧ ((∀ r ∈ db, r.id = alertId → r.acknowledged = false) →
        (resolveAlert alertId u now db).2 = false ∧
        (resolveAlert alertId u now db).1 = db)
    ∧ (∀ db2 : List AlertRow, Reachable db2 →
        ∀ r ∈ db2, r.resolved = true → r.acknowledged = true) := by
  have hnever : (∀ r ∈ db, r.id = alertId → r.acknowledged = false) →
      (resolveAlert alertId u now db).2 = false := by
    intro hall
    rw [Bool.eq_false_iff]
    intro htrue
    obtain ⟨r, hr, h1, h2, _⟩ :=
      (resolveAlert_success_iff alertId u now db).mp htrue
    rw [hall r hr h1] at h2
    exact Bool.false_ne_true h2
  refine ⟨resolveAlert_success_iff alertId u now db,
    resolveAlert_fail_unchanged alertId u now db, ?_, ?_,
    reachable_resolved_imp_acknowledged⟩
  · intro r hr h1 h2 h3
    exact List.mem_map.mpr ⟨r, hr, by rw [if_pos (by simp [resPred, h1, h2, h3])]⟩
  · intro hall
    exact ⟨hnever hall,
      resolveAlert_fail_unchanged alertId u now db (hnever hall)⟩

theorem resolveAlert_conditional_witness :
    ((resolveAlert 1 sampleUserB 200 [sampleRow]).2 = false ∧
      (resolveAlert 1 sampleUserB 200 [sampleRow]).1 = [sampleRow]) ∧
    resolveAlert 1 sampleUserB 200 [sampleRow] = ([sampleRow], false) :=
  ⟨(resolveAlert_conditional 1 sampleUserB 200 [sampleRow]).2.2.2.1
      (by intro r hr _; rw [List.mem_singleton.mp hr]; rfl),
    by decide⟩

/-- C8: on an empty trailing 7-day window `getWeeklyReport` does not
error and `COUNT(*)` gives `total = 0`, but each of the six `SUM(CASE
...)` aggregates is SQL NULL — SQLite's `sum()` over zero input rows is
NULL, not 0 — so the six remaining counts are not zero as claimed. -/
theorem getWeeklyReport_empty_window :
    getWeeklyReport 1000000 [] =
      { total := 0, acknowledged := none, resolved := none,
        unacknowledged := none, critical := none, warning := none,
        info := none } ∧
    (getWeeklyReport 1000000 []).acknowledged ≠ some 0 :=
  ⟨by decide, by decide⟩

/-- C4: for every well-formed canonical payload — non-empty string
`title`, `source`, `severity`, `message`, with severity exactly one of
the three canonical values, title at most 200 and message at most 2000
characters — the detector signals "no transformation needed" (`null`),
and the handler then uses the payload unchanged apart from trimming
whitespace on title/source/message and lower-casing severity. -/
theorem detect_canonical_no_transform (p : List (String × JsVal))
    (t s sv m : String)
    (ht : getF p "title" = .str t) (ht0 : t ≠ "") (htl : t.length ≤ 200)
    (hs : getF p "source" = .str s) (hs0 : s ≠ "")
    (hv : getF p "severity" = .str sv)
    (hv3 : sv = "critical" ∨ sv = "warning" ∨ sv = "info")
    (hm : getF p "message" = .str m) (hm0 : m ≠ "") (hml : m.length ≤ 2000) :
    detectAndTransformWebhook p = .ok none ∧
    canonicalAlertData p = .ok
      { title := jsTrim t, source := jsTrim s, severity := jsToLower sv,
        message := jsTrim m,
        timestamp := if truthy (getF p "timestamp") then
          .raw (getF p "timestamp") else .receipt } := by
  have hbadt : requiredFieldBad p "title" = false := by
    simp [requiredFieldBad, ht, ht0]
  have hbads : requiredFieldBad p "source" = false := by
    simp [requiredFieldBad, hs, hs0]
  have hbadv : requiredFieldBad p "severity" = false := by
    rcases hv3 with rfl | rfl | rfl <;> simp [requiredFieldBad, hv]
  have hbadm : requiredFieldBad p "message" = false := by
    simp [requiredFieldBad, hm, hm0]
  have hsv : strField p "severity" = sv := by simp [strField, hv]
  have hst : strField p "title" = t := by simp [strField, ht]
  have hsm : strField p "message" = m := by simp [strField, hm]
  have hval : validateAlertPayload p = ⟨true, none⟩ := by
    unfold validateAlertPayload
    rw [hbadt, hbads, hbadv, hbadm, hsv, hst, hsm]
    have hsev : sv = "critical" ∨ sv = "warning" ∨ sv = "info" := hv3
    simp [hsev, Nat.not_lt.mpr htl, Nat.not_lt.mpr hml]
  have hcanon : canonicalShapePred p = true := by
    have hsvne : sv ≠ "" := by rcases hv3 with rfl | rfl | rfl <;> decide
    simp [canonicalShapePred, ht, hs, hv, hm, truthy, ht0, hs0, hm0,
      hsvne, hval]
  constructor
  · simp [detectAndTransformWebhook, hcanon]
  · simp only [canonicalAlertData, asStringE, ht, hs, hv, hm]
    rfl

theorem detect_canonical_no_transform_witness :
    detectAndTransformWebhook
      [("title", .str " DB down "), ("source", .str "svc"),
       ("severity", .str "critical"), ("message", .str "timeout")] =
      .ok none ∧
    canonicalAlertData
      [("title", .str " DB down "), ("source", .str "svc"),
       ("severity", .str "critical"), ("message", .str "timeout")] =
      .ok { title := jsTrim " DB down ", source := jsTrim "svc",
            severity := jsToLower "critical", message := jsTrim "timeout",
            timestamp := .receipt } :=
  detect_canonical_no_transform _ " DB down " "svc" "critical" "timeout"
    rfl (by decide) (by decide) rfl (by decide) rfl (Or.inl rfl) rfl
    (by decide) (by decide)

theorem jsGetE_ok (v : JsVal) (k : String) (h : jsNullish v = false) :
    jsGetE v k = .ok (jsGetOpt v k) := by
  cases v <;> simp_all [jsGetE, jsGetOpt, jsNullish]

/-- C5 (amended): the detector classifies a payload into the Grafana
branch whenever `alerts` is truthy (every array is, the empty one
included), an array, and `receiver` is truthy — non-emptiness of
`alerts` is not part of the predicate; for Grafana-shaped payloads
whose `alerts` array is non-empty with a non-nullish first element the
transform never raises and the produced severity is one of
{critical, warning, info}; but a payload whose `alerts` field is the
empty array still enters the Grafana branch, where reading
`alerts[0].labels` throws a TypeError. -/
theorem grafana_branch_spec (p : List (String × JsVal)) (xs : List JsVal) :
    (canonicalShapePred p = false → grafanaShapePred p = true →
      detectAndTransformWebhook p = (transformGrafanaWebhook p).map some)
    ∧ (getF p "alerts" = .arr xs → xs ≠ [] →
        jsNullish (xs.getD 0 .undefined) = false →
        ∃ ai, transformGrafanaWebhook p = .ok ai ∧
          (ai.severity = "critical" ∨ ai.severity = "warning" ∨
            ai.severity = "info"))
    ∧ (getF p "alerts" = .arr [] →
        transformGrafanaWebhook p = .error "TypeError") := by
  refine ⟨?_, ?_, ?_⟩
  · intro h1 h2
    simp [detectAndTransformWebhook, h1, h2]
  · intro ha hne hnn
    obtain ⟨x0, rest, rfl⟩ := List.exists_cons_of_ne_nil hne
    rw [List.getD_cons_zero] at hnn
    cases x0 with
    | nul => simp [jsNullish] at hnn
    | undefined => simp [jsNullish] at hnn
    | bool b =>
      exact ⟨_, by unfold transformGrafanaWebhook; rw [ha]; rfl,
        mapSeverityJs_mem _ _ _⟩
    | num n =>
      exact ⟨_, by unfold transformGrafanaWebhook; rw [ha]; rfl,
        mapSeverityJs_mem _ _ _⟩
    | str s =>
      exact ⟨_, by unfold transformGrafanaWebhook; rw [ha]; rfl,
        mapSeverityJs_mem _ _ _⟩
    | arr ys =>
      exact ⟨_, by unfold transformGrafanaWebhook; rw [ha]; rfl,
        mapSeverityJs_mem _ _ _⟩
    | obj fs =>
      exact ⟨_, by unfold transformGrafanaWebhook; rw [ha]; rfl,
        mapSeverityJs_mem _ _ _⟩
  · intro ha
    unfold transformGrafanaWebhook
    rw [ha]
    rfl

theorem grafana_branch_spec_witness :
    ∃ ai, transformGrafanaWebhook
      [("alerts", .arr [.obj [("labels",
          .obj [("severity", .str "disaster")])]]),
       ("receiver", .str "r")] = .ok ai ∧
      (ai.severity = "critical" ∨ ai.severity = "warning" ∨
        ai.severity = "info") :=
  (grafana_branch_spec _ [.obj [("labels",
      .obj [("severity", .str "disaster")])]]).2.1 rfl
    (List.cons_ne_nil _ _) (by decide)

theorem grafana_empty_alerts_counterexample :
    detectAndTransformWebhook
      [("alerts", .arr []), ("receiver", .str "hook")] =
      .error "TypeError" ∧
    grafanaShapePred [("alerts", .arr []), ("receiver", .str "hook")] = true :=
  ⟨rfl, rfl⟩

/-- C9: format detection tries canonical, Grafana, Prometheus, Zabbix,
generic in that fixed order with the first matching predicate winning;
a payload whose four required fields are non-empty strings but whose
title exceeds 200 characters fails canonical validation (the canonical
branch rejects it), and — when it matches none of the
Grafana/Prometheus/Zabbix shapes and carries at least one of
status/level/priority — detection returns the generic transformation
instead of rejecting the payload outright. -/
theorem detect_oversize_title_generic (p : List (String × JsVal))
    (t s sv m : String)
    (ht : getF p "title" = .str t) (ht0 : t ≠ "") (htl : 200 < t.length)
    (hs : getF p "source" = .str s) (hs0 : s ≠ "")
    (hv : getF p "severity" = .str sv) (hv0 : sv ≠ "")
    (hm : getF p "message" = .str m) (hm0 : m ≠ "")
    (hg : grafanaShapePred p = false)
    (hpm : prometheusShapePred p = false)
    (hz : zabbixShapePred p = false)
    (hsl : (truthy (getF p "status") || truthy (getF p "level") ||
      truthy (getF p "priority")) = true) :
    (validateAlertPayload p).valid = false ∧
    detectAndTransformWebhook p = .ok (some (transformGenericWebhook p)) := by
  have hbadt : requiredFieldBad p "title" = false := by
    simp [requiredFieldBad, ht, ht0]
  have hbads : requiredFieldBad p "source" = false := by
    simp [requiredFieldBad, hs, hs0]
  have hbadv : requiredFieldBad p "severity" = false := by
    simp [requiredFieldBad, hv, hv0]
  have hbadm : requiredFieldBad p "message" = false := by
    simp [requiredFieldBad, hm, hm0]
  have hst : strField p "title" = t := by simp [strField, ht]
  have hsv : strField p "severity" = sv := by simp [strField, hv]
  have hval : (validateAlertPayload p).valid = false := by
    unfold validateAlertPayload
    rw [hbadt, hbads, hbadv, hbadm, hsv, hst]
    by_cases hcan : sv = "critical" ∨ sv = "warning" ∨ sv = "info"
    · simp [hcan, htl]
    · simp [hcan]
  have hcanon : canonicalShapePred p = false := by
    simp [canonicalShapePred, hval]
  have hgen : genericShapePred p = true := by
    simp only [genericShapePred, hsl, Bool.and_true]
    simp [truthy, hm, hm0]
  refine ⟨hval, ?_⟩
  simp [detectAndTransformWebhook, hcanon, hg, hpm, hz, hgen]

set_option maxRecDepth 4000 in
theorem detect_oversize_title_generic_witness :
    (validateAlertPayload
      [("title", .str (String.mk (List.replicate 201 'a'))),
       ("source", .str "svc"), ("severity", .str "critical"),
       ("message", .str "disk is full"),
       ("status", .str "active")]).valid = false ∧
    detectAndTransformWebhook
      [("title", .str (String.mk (List.replicate 201 'a'))),
       ("source", .str "svc"), ("severity", .str "critical"),
       ("message", .str "disk is full"),
       ("status", .str "active")] =
      .ok (some (transformGenericWebhook
        [("title", .str (String.mk (List.replicate 201 'a'))),
         ("source", .str "svc"), ("severity", .str "critical"),
         ("message", .str "disk is full"),
         ("status", .str "active")])) :=
  detect_oversize_title_generic _ (String.mk (List.replicate 201 'a'))
    "svc" "critical" "disk is full" rfl (by decide) (by decide) rfl
    (by decide) rfl (by decide) rfl (by decide) rfl rfl rfl rfl
